import Mathlib

/-!
Verification of the session-authenticated web application in `src/index.js`
(registration, login, auth-gated routing, logout, discover, profile).

The handlers are embedded shallowly: each Express route handler becomes a
Lean function from the request data, the session state and the outcomes of
its external effects (database calls, bcrypt operations, session
destruction) to an HTTP response and the new session state.  The outcome of
each fallible external operation is an explicit `Except` value supplied as
input, mirroring the `try`/`catch` and error-callback structure of the
source.  The middleware/route registration order of the source — landing,
login and register routes first, then the global `app.use(auth)` gate, then
discover, logout and profile — is reproduced literally in `dispatch`.
-/

/-- A row of the `users` table: `username` and `password` (the bcrypt hash). -/
structure User where
  username : String
  password : String
deriving DecidableEq, Repr

/-- The data object passed to `res.render`.  The handlers in the source pass
at most a `message`, an `error` flag and a `username`; absent keys are
`Option.none`. -/
structure RenderData where
  message : Option String
  error : Option Bool
  username : Option String
deriving DecidableEq, Repr

/-- `res.render` with no data object. -/
def RenderData.empty : RenderData := ⟨Option.none, Option.none, Option.none⟩

/-- An HTTP response as produced by the handlers: `res.redirect(path)`,
`res.render(tmpl, data)`, or `res.status(s).send(body)`. -/
inductive Response where
  | redirect (path : String)
  | render (tmpl : String) (data : RenderData)
  | send (status : Nat) (body : String)
deriving DecidableEq, Repr

/-- The HTTP status of a response: `res.redirect` sends 302, `res.render`
sends 200, `res.status(s).send` sends `s`. -/
def statusOf : Response → Nat
  | Response.redirect _ => 302
  | Response.render _ _ => 200
  | Response.send s _ => s

/-- HTTP methods used by the app's routes. -/
inductive Method where
  | get
  | post
deriving DecidableEq, Repr

/-- An incoming request: method, path, and the `username`/`password` body
fields read by the register and login handlers. -/
structure Request where
  method : Method
  path : String
  username : String
  password : String
deriving DecidableEq, Repr

/-- Outcomes of the external operations a single request may perform:
`db.oneOrNone` on the users table, `bcrypt.compare`, `bcrypt.hash`,
`db.none(INSERT ...)`, and `req.session.destroy`.  An `Except.error` value
is a thrown exception (or, for `destroy`, an error passed to the callback). -/
structure Effects where
  lookup : String → Except Unit (Option User)
  verify : String → String → Except Unit Bool
  hashPw : String → Except Unit String
  insert : String → String → Except Unit Unit
  destroy : Except Unit Unit

/-- `db.oneOrNone('SELECT * FROM users WHERE username = $1', ...)` over an
explicit list of rows: the first row with the given username, if any. -/
def oneOrNone (users : List User) (uname : String) : Option User :=
  users.find? (fun u => u.username == uname)

/-- Effects backed by a concrete, reachable users table whose hash
verification is string equality and whose other operations succeed. -/
def plainEff (users : List User) : Effects :=
  ⟨fun uname => Except.ok (oneOrNone users uname),
   fun pw h => Except.ok (pw == h),
   fun pw => Except.ok pw,
   fun _ _ => Except.ok (),
   Except.ok ()⟩

/-- Effects whose database lookup throws, as when the store is unreachable. -/
def lookupErrEff : Effects :=
  ⟨fun _ => Except.error (),
   fun _ _ => Except.ok false,
   fun _ => Except.error (),
   fun _ _ => Except.error (),
   Except.error ()⟩

/-- Effects where the user is found but `bcrypt.compare` throws. -/
def verifyErrEff (u : User) : Effects :=
  ⟨fun _ => Except.ok (Option.some u),
   fun _ _ => Except.error (),
   fun pw => Except.ok pw,
   fun _ _ => Except.ok (),
   Except.ok ()⟩

/-- Result of the `POST /login` handler: the response, the session's user
record afterwards, and whether `req.session.save()` was called. -/
structure LoginOutcome where
  resp : Response
  sess : Option User
  saved : Bool
deriving DecidableEq, Repr

/-- The generic message of the login handler's `catch` branch. -/
def loginCatchMessage : String := "An error occurred during login. Please try again."

/-- The `POST /login` handler (src/index.js lines 112-145).  Looks the
username up; if absent renders `pages/login` with a message; if the hash
comparison fails renders `login` (note: not `pages/login`) with a message;
if it succeeds stores the full user row in the session, saves it and
redirects to `/discover`.  A thrown lookup or comparison is caught and
rendered as a generic message on `pages/login`. -/
def postLogin (eff : Effects) (uname pw : String) (sess : Option User) : LoginOutcome :=
  match eff.lookup uname with
  | Except.error _ =>
      ⟨Response.render "pages/login" ⟨Option.some loginCatchMessage, Option.some true, Option.none⟩,
       sess, false⟩
  | Except.ok Option.none =>
      ⟨Response.render "pages/login"
        ⟨Option.some "Username not found. Please register.", Option.some true, Option.none⟩,
       sess, false⟩
  | Except.ok (Option.some user) =>
      match eff.verify pw user.password with
      | Except.error _ =>
          ⟨Response.render "pages/login" ⟨Option.some loginCatchMessage, Option.some true, Option.none⟩,
           sess, false⟩
      | Except.ok false =>
          ⟨Response.render "login"
            ⟨Option.some "Incorrect username or password.", Option.some true, Option.none⟩,
           sess, false⟩
      | Except.ok true =>
          ⟨Response.redirect "/discover", Option.some user, true⟩

/-- The `POST /register` handler (src/index.js lines 95-110).  Hashes the
password, inserts the row, redirects to `/login`; any thrown error is caught
and answered with a redirect back to `/register`. -/
def postRegister (eff : Effects) (uname pw : String) : Response :=
  match eff.hashPw pw with
  | Except.error _ => Response.redirect "/register"
  | Except.ok h =>
      match eff.insert uname h with
      | Except.error _ => Response.redirect "/register"
      | Except.ok _ => Response.redirect "/login"

/-- The `auth` middleware (src/index.js lines 150-156): if the session holds
no user, answer with a redirect to `/login`; otherwise pass to `next()`
(modelled as `Option.none`). -/
def auth (sess : Option User) : Option Response :=
  match sess with
  | Option.none => Option.some (Response.redirect "/login")
  | Option.some _ => Option.none

/-- The `GET /logout` handler (src/index.js lines 168-181): destroys the
session; if destruction errors, responds 500 `Could not log out.`;
otherwise renders `pages/logout` with a success message and `error: false`. -/
def getLogout (destroyRes : Except Unit Unit) (sess : Option User) :
    Response × Option User :=
  match destroyRes with
  | Except.error _ => (Response.send 500 "Could not log out.", sess)
  | Except.ok _ =>
      (Response.render "pages/logout"
        ⟨Option.some "Logged out Successfully", Option.some false, Option.none⟩,
       Option.none)

/-- The `GET /profile` handler (src/index.js lines 184-195): if the session
holds no user, responds 401 `Not authenticated`; otherwise renders
`pages/profile` with only the session user's `username`. -/
def getProfile (sess : Option User) : Response :=
  match sess with
  | Option.none => Response.send 401 "Not authenticated"
  | Option.some u =>
      Response.render "pages/profile" ⟨Option.none, Option.none, Option.some u.username⟩

/-- The whole request pipeline, in the source's registration order:
`GET /`, `GET /login`, `GET /register`, `POST /register`, `POST /login`
are registered before the global `app.use(auth)`; `GET /discover`
(also under the redundant `app.use('/discover', auth)`), `GET /logout`
and `GET /profile` after it; anything else falls through to the framework's
404.  Returns the response and the session state after the request. -/
def dispatch (eff : Effects) (req : Request) (sess : Option User) :
    Response × Option User :=
  if req.method = Method.get ∧ req.path = "/" then
    (Response.redirect "/login", sess)
  else if req.method = Method.get ∧ req.path = "/login" then
    (Response.render "pages/login" RenderData.empty, sess)
  else if req.method = Method.get ∧ req.path = "/register" then
    (Response.render "pages/register" RenderData.empty, sess)
  else if req.method = Method.post ∧ req.path = "/register" then
    (postRegister eff req.username req.password, sess)
  else if req.method = Method.post ∧ req.path = "/login" then
    let r := postLogin eff req.username req.password sess
    (r.resp, r.sess)
  else
    match auth sess with
    | Option.some resp => (resp, sess)
    | Option.none =>
        if req.method = Method.get ∧ req.path = "/discover" then
          (Response.render "pages/discover" RenderData.empty, sess)
        else if req.method = Method.get ∧ req.path = "/logout" then
          getLogout eff.destroy sess
        else if req.method = Method.get ∧ req.path = "/profile" then
          (getProfile sess, sess)
        else
          (Response.send 404 "Not Found", sess)

/-- Run a sequence of requests from one client, threading the session. -/
def runTrace (eff : Effects) : List Request → Option User → List Response × Option User
  | [], sess => ([], sess)
  | r :: rs, sess =>
      let step := dispatch eff r sess
      let rest := runTrace eff rs step.2
      (step.1 :: rest.1, rest.2)

/-- Whether a response was produced by `res.render`. -/
def isRender : Response → Bool
  | Response.render _ _ => true
  | _ => false

/-- Effects whose insert into the users table throws, as on a uniqueness
violation for an already-registered username. -/
def insertErrEff : Effects :=
  ⟨fun _ => Except.ok Option.none,
   fun _ _ => Except.ok false,
   fun pw => Except.ok pw,
   fun _ _ => Except.error (),
   Except.ok ()⟩

/-- Helper: a request that is not `POST /login` leaves an empty session
empty, whichever route it hits. -/
theorem dispatch_none_preserved (eff : Effects) (req : Request)
    (h : ¬ (req.method = Method.post ∧ req.path = "/login")) :
    (dispatch eff req Option.none).2 = Option.none := by
  unfold dispatch
  repeat' split
  all_goals try rfl
  all_goals try (cases eff.destroy <;> rfl)

/-- Helper: the response of `POST /login` does not depend on the incoming
session state. -/
theorem postLogin_resp_indep (eff : Effects) (un pw : String) (s1 s2 : Option User) :
    (postLogin eff un pw s1).resp = (postLogin eff un pw s2).resp := by
  cases hl : eff.lookup un with
  | error e => simp [postLogin, hl]
  | ok o =>
    cases o with
    | none => simp [postLogin, hl]
    | some user =>
      cases hv : eff.verify pw user.password with
      | error e => simp [postLogin, hl, hv]
      | ok b => cases b <;> simp [postLogin, hl, hv]

/-- Helper: the response to any request depends on the session user only
through its username, never through its password hash. -/
theorem dispatch_resp_hash_indep (eff : Effects) (req : Request) (u1 u2 : User)
    (h : u1.username = u2.username) :
    (dispatch eff req (Option.some u1)).1 = (dispatch eff req (Option.some u2)).1 := by
  unfold dispatch
  repeat' split
  all_goals try rfl
  all_goals try (exact postLogin_resp_indep eff req.username req.password _ _)
  all_goals simp_all [auth, getLogout, getProfile]
  all_goals try (cases eff.destroy <;> rfl)

/-- C1 (counterexample): through the app's pipeline, an unauthenticated
`GET /profile` is answered by the globally mounted auth gate with a redirect
to `/login`, not with the handler's HTTP 401 `Not authenticated`. -/
theorem profile_unauth_401_counterexample :
    (dispatch (plainEff []) ⟨Method.get, "/profile", "", ""⟩ Option.none).1 =
      Response.redirect "/login" ∧
    (dispatch (plainEff []) ⟨Method.get, "/profile", "", ""⟩ Option.none).1 ≠
      Response.send 401 "Not authenticated" :=
  ⟨rfl, by decide⟩

/-- C1 (amended): for every `GET /profile` request whose session holds no
user record, the auth gate mounted before the profile route responds with a
redirect to `/login` and the session stays empty; the handler's own
defensive check answers HTTP 401 `Not authenticated` without rendering, but
it is reached only when the handler is invoked directly, not through the
pipeline. -/
theorem profile_unauth_gate_redirects :
    (∀ (eff : Effects) (un pw : String),
        dispatch eff ⟨Method.get, "/profile", un, pw⟩ Option.none =
          (Response.redirect "/login", Option.none)) ∧
    getProfile Option.none = Response.send 401 "Not authenticated" :=
  ⟨fun _ _ _ => rfl, rfl⟩

/-- C2: when the username exists and the password hash comparison fails, the
login handler renders the message `Incorrect username or password.` with the
error flag set — but on the template path `login`, which differs from the
`pages/login` path used by every other branch of the handler. -/
theorem login_mismatch_renders_bare_login (eff : Effects) (un pw : String)
    (sess : Option User) (user : User)
    (hl : eff.lookup un = Except.ok (Option.some user))
    (hv : eff.verify pw user.password = Except.ok false) :
    postLogin eff un pw sess =
      ⟨Response.render "login"
        ⟨Option.some "Incorrect username or password.", Option.some true, Option.none⟩,
       sess, false⟩ ∧
    ("login" : String) ≠ "pages/login" :=
  ⟨by simp [postLogin, hl, hv], by decide⟩

/-- C2 (witness): the mismatch branch evaluated on a concrete store holding
`alice` and a wrong password. -/
theorem login_mismatch_witness :
    postLogin (plainEff [⟨"alice", "pw1"⟩]) "alice" "wrong" Option.none =
      ⟨Response.render "login"
        ⟨Option.some "Incorrect username or password.", Option.some true, Option.none⟩,
       Option.none, false⟩ ∧
    ("login" : String) ≠ "pages/login" :=
  login_mismatch_renders_bare_login (plainEff [⟨"alice", "pw1"⟩]) "alice" "wrong"
    Option.none ⟨"alice", "pw1"⟩ rfl rfl

/-- C3: on a successful `POST /login` the full user record is stored in the
session, `req.session.save()` is called, and the response is a redirect to
`/discover`; and for a client that never issues a `POST /login`, the session
holds no user record after any sequence of requests. -/
theorem login_success_gating :
    (∀ (eff : Effects) (un pw : String) (sess : Option User) (user : User),
        eff.lookup un = Except.ok (Option.some user) →
        eff.verify pw user.password = Except.ok true →
        postLogin eff un pw sess =
          ⟨Response.redirect "/discover", Option.some user, true⟩) ∧
    (∀ (eff : Effects) (reqs : List Request),
        (∀ r ∈ reqs, ¬ (r.method = Method.post ∧ r.path = "/login")) →
        (runTrace eff reqs Option.none).2 = Option.none) := by
  constructor
  · intro eff un pw sess user hl hv
    simp [postLogin, hl, hv]
  · intro eff reqs
    induction reqs with
    | nil => intro _; rfl
    | cons r rs ih =>
      intro hall
      have h2 := dispatch_none_preserved eff r (hall r (by simp))
      simp only [runTrace, h2]
      exact ih fun x hx => hall x (List.mem_cons_of_mem r hx)

/-- C3 (witness): `alice` logs in with her registered password and is
redirected to `/discover` with her record in the session; a client that
only visits `/profile` and `/discover` keeps an empty session. -/
theorem login_success_gating_witness :
    postLogin (plainEff [⟨"alice", "pw1"⟩]) "alice" "pw1" Option.none =
      ⟨Response.redirect "/discover", Option.some ⟨"alice", "pw1"⟩, true⟩ ∧
    (runTrace (plainEff []) [⟨Method.get, "/profile", "", ""⟩,
        ⟨Method.get, "/discover", "", ""⟩] Option.none).2 = Option.none :=
  ⟨login_success_gating.1 (plainEff [⟨"alice", "pw1"⟩]) "alice" "pw1" Option.none
      ⟨"alice", "pw1"⟩ rfl rfl,
   login_success_gating.2 (plainEff [])
      [⟨Method.get, "/profile", "", ""⟩, ⟨Method.get, "/discover", "", ""⟩]
      (by decide)⟩

/-- Helper: a single unauthenticated request to `/discover` is answered by
the auth gate with a redirect to `/login` and leaves the session empty. -/
theorem dispatch_discover_unauth (eff : Effects) (un pw : String) :
    dispatch eff ⟨Method.get, "/discover", un, pw⟩ Option.none =
      (Response.redirect "/login", Option.none) := rfl

/-- C4: any number of repeated unauthenticated requests to `/discover` all
produce a redirect to `/login`, the session stays empty throughout, and no
response in the trace is a render, so the discover page content is never
rendered to the unauthenticated client. -/
theorem discover_unauth_idempotent (eff : Effects) (un pw : String) (n : Nat) :
    runTrace eff (List.replicate n ⟨Method.get, "/discover", un, pw⟩) Option.none =
      (List.replicate n (Response.redirect "/login"), Option.none) ∧
    (runTrace eff (List.replicate n ⟨Method.get, "/discover", un, pw⟩)
        Option.none).1.all (fun r => !(isRender r)) = true := by
  have key : ∀ m : Nat,
      runTrace eff (List.replicate m ⟨Method.get, "/discover", un, pw⟩) Option.none =
        (List.replicate m (Response.redirect "/login"), Option.none) := by
    intro m
    induction m with
    | zero => rfl
    | succ k ih =>
      simp only [List.replicate_succ, runTrace, dispatch_discover_unauth, ih]
  refine ⟨key n, ?_⟩
  rw [key n]
  simp [List.all_eq_true, List.mem_replicate, isRender]

/-- C5: `POST /register` redirects to `/login` when both the hash and the
insert succeed, and redirects back to `/register` when the hash throws or
the insert throws (uniqueness violation, store unavailable); no other
response shape exists on this route. -/
theorem register_redirect_policy (eff : Effects) (un pw : String) :
    (∀ h, eff.hashPw pw = Except.ok h → eff.insert un h = Except.ok () →
        postRegister eff un pw = Response.redirect "/login") ∧
    (∀ e, eff.hashPw pw = Except.error e →
        postRegister eff un pw = Response.redirect "/register") ∧
    (∀ h e, eff.hashPw pw = Except.ok h → eff.insert un h = Except.error e →
        postRegister eff un pw = Response.redirect "/register") := by
  refine ⟨fun h hh hi => ?_, fun e hh => ?_, fun h e hh hi => ?_⟩
  · simp [postRegister, hh, hi]
  · simp [postRegister, hh]
  · simp [postRegister, hh, hi]

/-- C5 (witness): a registration with working effects redirects to `/login`;
one whose hash throws, and one whose insert throws, redirect to `/register`. -/
theorem register_redirect_policy_witness :
    postRegister (plainEff []) "alice" "pw1" = Response.redirect "/login" ∧
    postRegister lookupErrEff "alice" "pw1" = Response.redirect "/register" ∧
    postRegister insertErrEff "alice" "pw1" = Response.redirect "/register" :=
  ⟨(register_redirect_policy (plainEff []) "alice" "pw1").1 "pw1" rfl rfl,
   (register_redirect_policy lookupErrEff "alice" "pw1").2.1 () rfl,
   (register_redirect_policy insertErrEff "alice" "pw1").2.2 "pw1" () rfl rfl⟩

/-- C6: when the username has no row in the users table, `POST /login`
renders `pages/login` with the message `Username not found. Please
register.` and the error flag, at HTTP status 200, with the session left
unchanged and `req.session.save()` not called. -/
theorem login_username_not_found (eff : Effects) (un pw : String)
    (sess : Option User) (hl : eff.lookup un = Except.ok Option.none) :
    postLogin eff un pw sess =
      ⟨Response.render "pages/login"
        ⟨Option.some "Username not found. Please register.", Option.some true, Option.none⟩,
       sess, false⟩ ∧
    statusOf (postLogin eff un pw sess).resp = 200 := by
  have h1 : postLogin eff un pw sess =
      ⟨Response.render "pages/login"
        ⟨Option.some "Username not found. Please register.", Option.some true, Option.none⟩,
       sess, false⟩ := by simp [postLogin, hl]
  exact ⟨h1, by rw [h1]; rfl⟩

/-- C6 (witness): logging in as the unregistered `bob` against an empty
users table. -/
theorem login_username_not_found_witness :
    postLogin (plainEff []) "bob" "x" Option.none =
      ⟨Response.render "pages/login"
        ⟨Option.some "Username not found. Please register.", Option.some true, Option.none⟩,
       Option.none, false⟩ ∧
    statusOf (postLogin (plainEff []) "bob" "x" Option.none).resp = 200 :=
  login_username_not_found (plainEff []) "bob" "x" Option.none rfl

/-- C7: `GET /logout` on destruction failure responds HTTP 500 with the
plain text `Could not log out.` and renders no page; on success it renders
`pages/logout` with the success message and the error flag `false`, the
session being destroyed. -/
theorem logout_destroy_behavior (sess : Option User) :
    getLogout (Except.error ()) sess = (Response.send 500 "Could not log out.", sess) ∧
    statusOf (getLogout (Except.error ()) sess).1 = 500 ∧
    isRender (getLogout (Except.error ()) sess).1 = false ∧
    getLogout (Except.ok ()) sess =
      (Response.render "pages/logout"
        ⟨Option.some "Logged out Successfully", Option.some false, Option.none⟩,
       Option.none) :=
  ⟨rfl, rfl, rfl, rfl⟩

/-- C8: if the database lookup throws, or the user is found and the hash
comparison throws, `POST /login` is caught by the handler's `catch` and
renders `pages/login` with the generic failure message and the error flag,
leaving the session unchanged; no raw error reaches the client. -/
theorem login_unexpected_failure (eff : Effects) (un pw : String)
    (sess : Option User) :
    (∀ e, eff.lookup un = Except.error e →
        postLogin eff un pw sess =
          ⟨Response.render "pages/login"
            ⟨Option.some loginCatchMessage, Option.some true, Option.none⟩,
           sess, false⟩) ∧
    (∀ user e, eff.lookup un = Except.ok (Option.some user) →
        eff.verify pw user.password = Except.error e →
        postLogin eff un pw sess =
          ⟨Response.render "pages/login"
            ⟨Option.some loginCatchMessage, Option.some true, Option.none⟩,
           sess, false⟩) := by
  constructor
  · intro e hl
    simp [postLogin, hl]
  · intro user e hl hv
    simp [postLogin, hl, hv]

/-- C8 (witness): a login against an unreachable store, and one where the
hash comparison throws, both render the generic failure message. -/
theorem login_unexpected_failure_witness :
    postLogin lookupErrEff "alice" "pw1" Option.none =
      ⟨Response.render "pages/login"
        ⟨Option.some loginCatchMessage, Option.some true, Option.none⟩,
       Option.none, false⟩ ∧
    postLogin (verifyErrEff ⟨"alice", "h1"⟩) "alice" "pw1" Option.none =
      ⟨Response.render "pages/login"
        ⟨Option.some loginCatchMessage, Option.some true, Option.none⟩,
       Option.none, false⟩ :=
  ⟨(login_unexpected_failure lookupErrEff "alice" "pw1" Option.none).1 () rfl,
   (login_unexpected_failure (verifyErrEff ⟨"alice", "h1"⟩) "alice" "pw1"
      Option.none).2 ⟨"alice", "h1"⟩ () rfl rfl⟩

/-- C9: an unauthenticated `GET /logout` is answered by the globally mounted
auth gate with a redirect to `/login` before the logout handler runs, and
only for an authenticated client does the request reach the logout handler
(session destruction and the confirmation page). -/
theorem logout_gate_protects :
    (∀ (eff : Effects) (un pw : String),
        dispatch eff ⟨Method.get, "/logout", un, pw⟩ Option.none =
          (Response.redirect "/login", Option.none)) ∧
    (∀ (eff : Effects) (un pw : String) (u : User),
        dispatch eff ⟨Method.get, "/logout", un, pw⟩ (Option.some u) =
          getLogout eff.destroy (Option.some u)) :=
  ⟨fun _ _ _ => rfl, fun _ _ _ _ => rfl⟩

/-- C10: the profile handler renders `pages/profile` with only the session
user's `username` — never the stored password hash — and, for any request,
two sessions holding users that differ only in their password hash produce
the same response. -/
theorem profile_render_no_hash :
    (∀ u : User, getProfile (Option.some u) =
        Response.render "pages/profile"
          ⟨Option.none, Option.none, Option.some u.username⟩) ∧
    (∀ (eff : Effects) (req : Request) (u1 u2 : User),
        u1.username = u2.username →
        (dispatch eff req (Option.some u1)).1 =
          (dispatch eff req (Option.some u2)).1) :=
  ⟨fun _ => rfl, dispatch_resp_hash_indep⟩

/-- C10 (witness): two sessions for `alice` with different stored hashes
get the same rendered profile page. -/
theorem profile_render_no_hash_witness :
    (dispatch (plainEff []) ⟨Method.get, "/profile", "", ""⟩
        (Option.some ⟨"alice", "hashA"⟩)).1 =
      (dispatch (plainEff []) ⟨Method.get, "/profile", "", ""⟩
        (Option.some ⟨"alice", "hashB"⟩)).1 :=
  profile_render_no_hash.2 (plainEff []) ⟨Method.get, "/profile", "", ""⟩
    ⟨"alice", "hashA"⟩ ⟨"alice", "hashB"⟩ rfl
